import Mathlib

/-!
Shallow embedding of the procedural-deformation pipeline of
`src/src/main.js` (threeDProceduralGeneration).

Vertex positions and numeric modifier parameters are modelled over the
real numbers; JavaScript values that the code compares with strict
equality (the `enabled` field) are modelled by an explicit `JVal` type,
and optional record fields (accessed with the `??` operator in the
source) by `Option`.  The IEEE-754 behaviour of a division by zero,
which the real-number model cannot see, is modelled separately by the
extended-rational type `JNum` below.
-/

namespace ProcGen

set_option maxHeartbeats 1000000

/-- A 3-component vertex position in model space (`THREE.Vector3` as used
by the per-vertex loops of `main.js`). -/
@[ext]
structure Vec3 where
  x : ℝ
  y : ℝ
  z : ℝ

/-- JavaScript values as far as the source inspects them: the modifier
loop tests `mod.enabled === false` (strict equality), so absent
(`undefined`), `null`, numeric and string values must stay distinct from
the boolean `false`. -/
inductive JVal where
  | jsFalse : JVal
  | jsTrue : JVal
  | jsUndefined : JVal
  | jsNull : JVal
  | jsNum : ℚ → JVal
  | jsStr : String → JVal
deriving DecidableEq

/-- The `base` shape descriptor of a recipe (`recipe.base`): a `type`
tag plus the numeric fields read by `buildBaseGeometry` and, for
`tube`/`height`, by `twistNoise` through the `??` operator.  Fields a
descriptor may omit are `Option`. -/
structure Base where
  type : String
  radius : Option ℝ
  tube : Option ℝ
  height : Option ℝ
  radiusTop : Option ℝ
  radiusBottom : Option ℝ
  radialSegments : Option ℕ
  tubularSegments : Option ℕ
  heightSegments : Option ℕ

/-- One modifier configuration of `recipe.modifiers`: a `type` tag, the
`enabled` field (an arbitrary JavaScript value, see `JVal`), the driver
`axis`, and the numeric parameters used by taper, bend and twistNoise.
`timeScale` is `Option` because the source reads it as
`mod.timeScale ?? 1.0`. -/
structure Modifier where
  type : String
  enabled : JVal
  axis : String
  range : ℝ
  amount : ℝ
  strength : ℝ
  twist : ℝ
  noiseAmp : ℝ
  noiseFreq : ℝ
  timeScale : Option ℝ

/-- Model of `Math.atan2(y, x)`: the principal argument of the complex
number `x + y*I`. -/
noncomputable def atan2 (y x : ℝ) : ℝ :=
  Complex.arg { re := x, im := y }

/-- `getDriverValue(v, axis)` (main.js lines 139-148): extracts a scalar
driver value from a vertex position along the chosen axis; the switch
falls through to `v.y` for any unrecognized axis. -/
noncomputable def getDriverValue (v : Vec3) (axis : String) : ℝ :=
  if axis = "x" then v.x
  else if axis = "y" then v.y
  else if axis = "z" then v.z
  else if axis = "radial" then Real.sqrt (v.x * v.x + v.z * v.z)
  else if axis = "angle" then atan2 v.z v.x
  else v.y

/-- `THREE.MathUtils.clamp(value, min, max) = Math.max(min, Math.min(max, value))`. -/
noncomputable def clamp (value lo hi : ℝ) : ℝ :=
  max lo (min hi value)

/-- The scale factor `s` computed by `taper` (main.js lines 303-312):
`t = Math.max(0, d / mod.range) * mod.amount` with `d` the driver value,
then `s = clamp(1 + t * mod.strength, 0.2, 2.0)`. -/
noncomputable def taperScale (m : Modifier) (v : Vec3) : ℝ :=
  let d := getDriverValue v m.axis
  let t := max 0 (d / m.range) * m.amount
  clamp (1 + t * m.strength) 0.2 2.0

/-- The per-vertex action of `taper` (main.js lines 300-317): scales x
and z by the clamped factor, leaves y untouched. -/
noncomputable def taperVertex (m : Modifier) (v : Vec3) : Vec3 :=
  let s := taperScale m v
  { x := v.x * s, y := v.y, z := v.z * s }

/-- The per-vertex action of `bend` (main.js lines 280-291):
`t = d * mod.amount; v.y += t * t * mod.strength`, x and z untouched. -/
noncomputable def bendVertex (m : Modifier) (v : Vec3) : Vec3 :=
  let d := getDriverValue v m.axis
  let t := d * m.amount
  { x := v.x, y := v.y + t * t * m.strength, z := v.z }

/-- `recipe.base.tube ?? recipe.base.height ?? 2.0` (main.js line 241):
the normalization scale used by `twistNoise`. -/
def normalizeRange (base : Base) : ℝ :=
  (base.tube.getD (base.height.getD 2.0))

/-- The per-vertex action of `twistNoise` (main.js lines 243-270):
rotate (x, z) about Y by a time-animated, y-proportional angle, then
displace along the rotated radial direction by a product-of-sines noise
term, skipping the displacement when the radial length is at most
0.0001. -/
noncomputable def twistNoiseVertex (base : Base) (m : Modifier) (time : ℝ) (v : Vec3) : Vec3 :=
  let localTime := time * m.timeScale.getD 1.0
  let nr := normalizeRange base
  let animatedTwist := m.twist * (1 + 0.3 * Real.sin localTime)
  let normalizedY := v.y / nr
  let angle := animatedTwist * normalizedY
  let cosA := Real.cos angle
  let sinA := Real.sin angle
  let x := v.x * cosA - v.z * sinA
  let z := v.x * sinA + v.z * cosA
  let n := Real.sin (x * m.noiseFreq + localTime) *
    Real.sin (v.y * m.noiseFreq + localTime) *
    Real.sin (z * m.noiseFreq + localTime)
  let radialLength := Real.sqrt (x * x + 0 * 0 + z * z)
  if radialLength > 0.0001 then
    { x := x + x / radialLength * (n * m.noiseAmp),
      y := v.y + 0 / radialLength * (n * m.noiseAmp),
      z := z + z / radialLength * (n * m.noiseAmp) }
  else
    { x := x, y := v.y, z := z }

/-- Rotation of a vertex about the Y axis by a given angle, as performed
by the twist step of `twistNoise` (main.js lines 250-255). -/
noncomputable def rotateY (angle : ℝ) (v : Vec3) : Vec3 :=
  { x := v.x * Real.cos angle - v.z * Real.sin angle,
    y := v.y,
    z := v.x * Real.sin angle + v.z * Real.cos angle }

/-- The noise-displacement step of `twistNoise` (main.js lines 257-267),
as a function of the vertex it receives: both the noise sample and the
radial direction are computed from that vertex. -/
noncomputable def noiseDisplace (m : Modifier) (localTime : ℝ) (w : Vec3) : Vec3 :=
  let n := Real.sin (w.x * m.noiseFreq + localTime) *
    Real.sin (w.y * m.noiseFreq + localTime) *
    Real.sin (w.z * m.noiseFreq + localTime)
  let radialLength := Real.sqrt (w.x * w.x + 0 * 0 + w.z * w.z)
  if radialLength > 0.0001 then
    { x := w.x + w.x / radialLength * (n * m.noiseAmp),
      y := w.y + 0 / radialLength * (n * m.noiseAmp),
      z := w.z + w.z / radialLength * (n * m.noiseAmp) }
  else
    { x := w.x, y := w.y, z := w.z }

/-- Whole-geometry form of `taper` (main.js lines 296-319): the
per-vertex transform applied to every position of the working mesh. -/
noncomputable def taper (m : Modifier) (g : List Vec3) : List Vec3 :=
  g.map (taperVertex m)

/-- Whole-geometry form of `bend` (main.js lines 276-294). -/
noncomputable def bend (m : Modifier) (g : List Vec3) : List Vec3 :=
  g.map (bendVertex m)

/-- Whole-geometry form of `twistNoise` (main.js lines 235-273). -/
noncomputable def twistNoise (base : Base) (m : Modifier) (time : ℝ) (g : List Vec3) : List Vec3 :=
  g.map (twistNoiseVertex base m time)

/-- A failure of the per-modifier step: the explicit unknown-modifier
throw of main.js line 364, or a `TypeError` thrown by calling an
inherited non-modifier member (see `dispatchStep`). -/
inductive PipelineError where
  | unknownModifierKind : PipelineError
  | typeError : PipelineError
deriving DecidableEq

/-- The possible results of the JavaScript property read
`MODIFIERS[mod.type]`: an own entry of the object literal (a modifier
function), a truthy member inherited from `Object.prototype` whose call
returns normally, a truthy inherited member whose call throws a
`TypeError`, or `undefined`. -/
inductive JSLookup where
  | ownFn : (Modifier → List Vec3 → List Vec3) → JSLookup
  | inheritedNoop : JSLookup
  | inheritedTypeError : JSLookup
  | undef : JSLookup

/-- Member names the `MODIFIERS` object literal inherits from
`Object.prototype` for which the strict-mode call `fn(geometry, mod, t)`
(main.js is an ES module, so `this` is `undefined`) returns normally
and leaves the geometry untouched: `Object.prototype.toString`
stringifies its absent receiver to `[object Undefined]`, and
`constructor` is the `Object` function, which merely wraps its first
argument. -/
def inheritedNoopNames : List String := ["toString", "constructor"]

/-- Member names the `MODIFIERS` object literal inherits from
`Object.prototype` for which the strict-mode call with an `undefined`
receiver throws a `TypeError`: these either coerce `this` with
`ToObject` (`valueOf`, `hasOwnProperty`, ...) or, for the value of the
`__proto__` accessor, are not callable at all. -/
def inheritedTypeErrorNames : List String :=
  ["toLocaleString", "valueOf", "hasOwnProperty", "isPrototypeOf",
    "propertyIsEnumerable", "__proto__", "__defineGetter__", "__defineSetter__",
    "__lookupGetter__", "__lookupSetter__"]

/-- All member names the `MODIFIERS` object literal inherits from
`Object.prototype`. -/
def objectPrototypeNames : List String :=
  inheritedNoopNames ++ inheritedTypeErrorNames

/-- The `MODIFIERS` dispatch lookup (main.js lines 321-325 and 362): a
JavaScript property read on the object literal
`{ twistNoise, bend, taper }`.  The three own entries yield the
modifier functions; a tag that is no own entry still traverses the
prototype chain, so the names of `Object.prototype` members yield a
truthy inherited value; only the remaining tags yield `undefined`. -/
noncomputable def MODIFIERS (base : Base) (time : ℝ) (ty : String) : JSLookup :=
  if ty = "twistNoise" then JSLookup.ownFn (fun m g => twistNoise base m time g)
  else if ty = "bend" then JSLookup.ownFn (fun m g => bend m g)
  else if ty = "taper" then JSLookup.ownFn (fun m g => taper m g)
  else if ty ∈ inheritedNoopNames then JSLookup.inheritedNoop
  else if ty ∈ inheritedTypeErrorNames then JSLookup.inheritedTypeError
  else JSLookup.undef

/-- The non-skip branch of the per-modifier step in `animate` (main.js
lines 362-366): `const fn = MODIFIERS[mod.type]; if (!fn) throw ...;
fn(geometry, mod, t)`.  Only a falsy (`undefined`) lookup raises the
unknown-modifier error; a truthy member inherited from
`Object.prototype` passes the `!fn` check, and its call either returns
normally with the geometry untouched (its return value is discarded) or
throws a `TypeError`, a failure distinct from the unknown-modifier
throw. -/
noncomputable def dispatchStep (base : Base) (time : ℝ) (m : Modifier) (g : List Vec3) :
    Except PipelineError (List Vec3) :=
  match MODIFIERS base time m.type with
  | JSLookup.ownFn f => Except.ok (f m g)
  | JSLookup.inheritedNoop => Except.ok g
  | JSLookup.inheritedTypeError => Except.error PipelineError.typeError
  | JSLookup.undef => Except.error PipelineError.unknownModifierKind

/-- One iteration of the modifier loop in `animate` (main.js lines
359-366): `if (mod.enabled === false) continue;` then dispatch. -/
noncomputable def stepMod (base : Base) (time : ℝ) (m : Modifier) (g : List Vec3) :
    Except PipelineError (List Vec3) :=
  if m.enabled = JVal.jsFalse then Except.ok g
  else dispatchStep base time m g

/-- The per-frame deformation pass over the ordered modifier list
(main.js lines 358-368): each step reads the current, possibly
already-deformed positions; a thrown error aborts the rest of the
frame. -/
noncomputable def applyMods (base : Base) (time : ℝ) :
    List Modifier → List Vec3 → Except PipelineError (List Vec3)
  | [], g => Except.ok g
  | m :: ms, g =>
    match stepMod base time m g with
    | Except.ok g2 => applyMods base time ms g2
    | Except.error e => Except.error e

/-- Error raised when the base descriptor tag is not a supported shape
(`throw new Error` at main.js line 231). -/
inductive GeomError where
  | unsupportedShapeKind : GeomError
deriving DecidableEq

/-- The result of building a base geometry: the effective constructor
arguments the THREE geometry is built from. -/
inductive MeshGeom where
  | torusGeom (radius tube : Option ℝ) (radialSegments tubularSegments : ℕ) : MeshGeom
  | cylinderGeom (radiusTop radiusBottom height : ℝ) (radialSegments heightSegments : ℕ) : MeshGeom

/-- Modelled from the spec: the body of `THREE.TorusGeometry` is not
part of this repository's sources; per the spec (section 4.1) segment
counts below their valid range are clamped to a minimum viable count
rather than used as-is, and absent arguments take the constructor
defaults (12 radial, 48 tubular). -/
def torusGeometry (radius tube : Option ℝ) (radialSegments tubularSegments : Option ℕ) : MeshGeom :=
  MeshGeom.torusGeom radius tube (max 3 (radialSegments.getD 12)) (max 3 (tubularSegments.getD 48))

/-- Modelled from the spec: the body of `THREE.CylinderGeometry` is not
part of this repository's sources; per the spec (section 4.1) segment
counts below their valid range are clamped to a minimum viable count
rather than used as-is. -/
def cylinderGeometry (radiusTop radiusBottom height : ℝ) (radialSegments heightSegments : ℕ) : MeshGeom :=
  MeshGeom.cylinderGeom radiusTop radiusBottom height (max 3 radialSegments) (max 1 heightSegments)

/-- The effective radial segment count of a built geometry. -/
def radialCount : MeshGeom → ℕ
  | MeshGeom.torusGeom _ _ r _ => r
  | MeshGeom.cylinderGeom _ _ _ r _ => r

/-- `buildBaseGeometry(base)` (main.js lines 214-232): dispatch on the
descriptor tag; the cylinder branch applies `??` defaults to its
arguments; any other tag throws. -/
noncomputable def buildBaseGeometry (base : Base) : Except GeomError MeshGeom :=
  if base.type = "torus" then
    Except.ok (torusGeometry base.radius base.tube base.radialSegments base.tubularSegments)
  else if base.type = "cylinder" then
    Except.ok (cylinderGeometry (base.radiusTop.getD 0.05) (base.radiusBottom.getD 0.4)
      (base.height.getD 3.0) (base.radialSegments.getD 32) (base.heightSegments.getD 64))
  else Except.error GeomError.unsupportedShapeKind

/-!
IEEE-754 view of the taper scale computation.  The real-number model
above cannot express what JavaScript does on a division by zero, so the
scale-factor arithmetic is repeated here over an extended-rational type
with `+Infinity`, `-Infinity` and `NaN`.  Rounding of finite values is
not modelled; every value arising in the instances evaluated below is
exactly representable, and the IEEE special-value rules used
(`1/0 = +Infinity`, `0/0 = NaN`, `Math.max`/`Math.min` returning `NaN`
when an argument is `NaN`) are exact. -/
inductive JNum where
  | fin : ℚ → JNum
  | inf : JNum
  | ninf : JNum
  | nan : JNum
deriving DecidableEq

/-- `Math.max` on JS numbers: `NaN` if either argument is `NaN`. -/
def jsMax : JNum → JNum → JNum
  | JNum.nan, _ => JNum.nan
  | _, JNum.nan => JNum.nan
  | JNum.inf, _ => JNum.inf
  | _, JNum.inf => JNum.inf
  | JNum.ninf, b => b
  | a, JNum.ninf => a
  | JNum.fin a, JNum.fin b => JNum.fin (if a < b then b else a)

/-- `Math.min` on JS numbers: `NaN` if either argument is `NaN`. -/
def jsMin : JNum → JNum → JNum
  | JNum.nan, _ => JNum.nan
  | _, JNum.nan => JNum.nan
  | JNum.ninf, _ => JNum.ninf
  | _, JNum.ninf => JNum.ninf
  | JNum.inf, b => b
  | a, JNum.inf => a
  | JNum.fin a, JNum.fin b => JNum.fin (if a < b then a else b)

/-- JS addition on the extended values. -/
def jsAdd : JNum → JNum → JNum
  | JNum.nan, _ => JNum.nan
  | _, JNum.nan => JNum.nan
  | JNum.inf, JNum.ninf => JNum.nan
  | JNum.ninf, JNum.inf => JNum.nan
  | JNum.inf, _ => JNum.inf
  | _, JNum.inf => JNum.inf
  | JNum.ninf, _ => JNum.ninf
  | _, JNum.ninf => JNum.ninf
  | JNum.fin a, JNum.fin b => JNum.fin (a + b)

/-- JS multiplication on the extended values: an infinity times zero is
`NaN`, otherwise signs combine. -/
def jsMul : JNum → JNum → JNum
  | JNum.nan, _ => JNum.nan
  | _, JNum.nan => JNum.nan
  | JNum.inf, JNum.inf => JNum.inf
  | JNum.inf, JNum.ninf => JNum.ninf
  | JNum.ninf, JNum.inf => JNum.ninf
  | JNum.ninf, JNum.ninf => JNum.inf
  | JNum.inf, JNum.fin b => if b = 0 then JNum.nan else if 0 < b then JNum.inf else JNum.ninf
  | JNum.fin a, JNum.inf => if a = 0 then JNum.nan else if 0 < a then JNum.inf else JNum.ninf
  | JNum.ninf, JNum.fin b => if b = 0 then JNum.nan else if 0 < b then JNum.ninf else JNum.inf
  | JNum.fin a, JNum.ninf => if a = 0 then JNum.nan else if 0 < a then JNum.ninf else JNum.inf
  | JNum.fin a, JNum.fin b => JNum.fin (a * b)

/-- JS division on the extended values: a nonzero finite value divided
by zero gives a signed infinity, `0/0` gives `NaN`. -/
def jsDiv : JNum → JNum → JNum
  | JNum.nan, _ => JNum.nan
  | _, JNum.nan => JNum.nan
  | JNum.inf, JNum.inf => JNum.nan
  | JNum.inf, JNum.ninf => JNum.nan
  | JNum.ninf, JNum.inf => JNum.nan
  | JNum.ninf, JNum.ninf => JNum.nan
  | JNum.inf, JNum.fin b => if 0 ≤ b then JNum.inf else JNum.ninf
  | JNum.ninf, JNum.fin b => if 0 ≤ b then JNum.ninf else JNum.inf
  | JNum.fin _, JNum.inf => JNum.fin 0
  | JNum.fin _, JNum.ninf => JNum.fin 0
  | JNum.fin a, JNum.fin b =>
    if b = 0 then
      if a = 0 then JNum.nan else if 0 < a then JNum.inf else JNum.ninf
    else JNum.fin (a / b)

/-- `THREE.MathUtils.clamp` on JS numbers. -/
def jsClamp (value lo hi : JNum) : JNum :=
  jsMax lo (jsMin hi value)

/-- The taper scale computation of main.js lines 305-312 carried out in
JS-number semantics on a given driver value `d`:
`s = clamp(1 + (Math.max(0, d / range) * amount) * strength, 0.2, 2.0)`;
the lower clamp bound 0.2 is the rational 1/5. -/
def jsTaperScale (d range amount strength : JNum) : JNum :=
  jsClamp (jsAdd (JNum.fin 1) (jsMul (jsMul (jsMax (JNum.fin 0) (jsDiv d range)) amount) strength))
    (JNum.fin (mkRat 1 5)) (JNum.fin 2)

/-! Concrete inputs used by the witness theorems below. -/

/-- A concrete off-axis vertex. -/
noncomputable def vW : Vec3 := { x := 1, y := 1, z := 1 }

/-- A concrete one-vertex working mesh. -/
noncomputable def gW : List Vec3 := [{ x := 1, y := 1, z := 1 }]

/-- A concrete enabled taper modifier with unit parameters. -/
noncomputable def mTaperW : Modifier :=
  { type := "taper", enabled := JVal.jsTrue, axis := "y", range := 1, amount := 1,
    strength := 1, twist := 0, noiseAmp := 0, noiseFreq := 0, timeScale := none }

/-- The same taper modifier with `enabled` strictly `false`. -/
noncomputable def mTaperOff : Modifier := { mTaperW with enabled := JVal.jsFalse }

/-- A modifier whose type tag matches no entry of `MODIFIERS` and no
`Object.prototype` member. -/
noncomputable def mUnknownW : Modifier := { mTaperW with type := "wobble" }

/-- An enabled modifier whose type tag is the inherited
`Object.prototype` member name `toString`. -/
noncomputable def mToStringW : Modifier := { mTaperW with type := "toString" }

/-- A bend modifier whose `enabled` field holds the falsy number `0`
rather than the boolean `false`. -/
noncomputable def mBendZeroEnabled : Modifier :=
  { type := "bend", enabled := JVal.jsNum 0, axis := "y", range := 0, amount := 1,
    strength := 1, twist := 0, noiseAmp := 0, noiseFreq := 0, timeScale := none }

/-- A concrete enabled twistNoise modifier. -/
noncomputable def mTwistW : Modifier :=
  { type := "twistNoise", enabled := JVal.jsTrue, axis := "y", range := 0, amount := 0,
    strength := 0, twist := 0.4, noiseAmp := 0.03, noiseFreq := 3, timeScale := some 0.3 }

/-- A concrete cylinder base descriptor. -/
noncomputable def baseCylW : Base :=
  { type := "cylinder", radius := none, tube := none, height := some 3,
    radiusTop := some 0.05, radiusBottom := some 0.4, radialSegments := some 32,
    tubularSegments := none, heightSegments := some 64 }

/-- A torus base descriptor with an out-of-range segment count of zero. -/
noncomputable def baseTorusZeroSeg : Base :=
  { type := "torus", radius := some 1, tube := some 0.3, height := none,
    radiusTop := none, radiusBottom := none, radialSegments := some 0,
    tubularSegments := some 32, heightSegments := none }

/-- A base descriptor whose tag is not a supported shape kind. -/
noncomputable def baseUnknownW : Base :=
  { type := "sphere", radius := none, tube := none, height := none,
    radiusTop := none, radiusBottom := none, radialSegments := none,
    tubularSegments := none, heightSegments := none }

/-! The claims. -/

/-- C1: for every vertex position and every taper modifier with nonzero
`range`, the scale factor `s = clamp(1 + (max(0, d/range) * amount) *
strength, 0.2, 2.0)` satisfies `0.2 ≤ s ≤ 2.0`, and taper returns the
position scaled by `s` in x and z with y unchanged. -/
theorem taper_scale_clamped (v : Vec3) (m : Modifier) (_h : m.range ≠ 0) :
    0.2 ≤ taperScale m v ∧ taperScale m v ≤ 2.0 ∧
      taperVertex m v =
        { x := v.x * taperScale m v, y := v.y, z := v.z * taperScale m v } := by
  refine ⟨?_, ?_, rfl⟩
  · simp only [taperScale, clamp]
    exact le_max_left _ _
  · simp only [taperScale, clamp]
    exact max_le (by norm_num) (min_le_left _ _)

/-- Witness for C1 at the vertex (1,1,1) and a taper modifier with
`range = 1`, `amount = 1`, `strength = 1`, axis y. -/
theorem taper_scale_clamped_witness :
    0.2 ≤ taperScale mTaperW vW ∧ taperScale mTaperW vW ≤ 2.0 ∧
      taperVertex mTaperW vW =
        { x := vW.x * taperScale mTaperW vW, y := vW.y, z := vW.z * taperScale mTaperW vW } :=
  taper_scale_clamped vW mTaperW (by show (1 : ℝ) ≠ 0; norm_num)

/-- C2 (code bug evidence): in JavaScript number semantics the taper
code performs the division by a zero `range` with no guard.  On driver
value 1 with `amount = strength = 1` the intermediate value is
`+Infinity` and the scale factor clamps to 2 (the claim predicts scale
1 and an unchanged vertex), and on driver value 0 the scale factor is
`NaN`. -/
theorem taper_range_zero_division :
    jsTaperScale (JNum.fin 1) (JNum.fin 0) (JNum.fin 1) (JNum.fin 1) = JNum.fin 2 ∧
      jsTaperScale (JNum.fin 1) (JNum.fin 0) (JNum.fin 1) (JNum.fin 1) ≠ JNum.fin 1 ∧
      jsTaperScale (JNum.fin 0) (JNum.fin 0) (JNum.fin 1) (JNum.fin 1) = JNum.nan := by
  decide

/-- C3: twistNoise first rotates (x, z) about Y by
`(twist * (1 + 0.3*sin(time*timeScale))) * (y / normalizeRange)` with
`normalizeRange = base.tube ?? base.height ?? 2.0`, and only then runs
the noise displacement step on the already-rotated vertex, which uses
the rotated x and z both for the noise sample and for the radial
direction. -/
theorem twistNoise_rotate_before_displace (base : Base) (m : Modifier) (time : ℝ) (v : Vec3) :
    twistNoiseVertex base m time v =
      noiseDisplace m (time * m.timeScale.getD 1.0)
        (rotateY
          (m.twist * (1 + 0.3 * Real.sin (time * m.timeScale.getD 1.0)) *
            (v.y / base.tube.getD (base.height.getD 2.0)))
          v) := rfl

/-- C4: a vertex on the vertical axis (x = 0 and z = 0) is returned
completely unchanged by twistNoise: the rotation fixes it and the
radial length 0 is below the epsilon guard, so the displacement is
skipped regardless of the noise amplitude. -/
theorem twistNoise_on_axis_unchanged (base : Base) (m : Modifier) (time : ℝ) (v : Vec3)
    (hx : v.x = 0) (hz : v.z = 0) : twistNoiseVertex base m time v = v := by
  obtain ⟨vx, vy, vz⟩ := v
  dsimp only at hx hz
  subst hx
  subst hz
  simp only [twistNoiseVertex]
  norm_num [Real.sqrt_zero]

/-- Witness for C4 at the on-axis vertex (0, 3, 0) with a concrete
twistNoise modifier of nonzero noise amplitude at time 5. -/
theorem twistNoise_on_axis_unchanged_witness :
    twistNoiseVertex baseCylW mTwistW 5 { x := 0, y := 3, z := 0 } = { x := 0, y := 3, z := 0 } :=
  twistNoise_on_axis_unchanged baseCylW mTwistW 5 { x := 0, y := 3, z := 0 } rfl rfl

/-- C5: a modifier whose `enabled` field is strictly `false` is skipped
by the per-frame pass: its step returns the working positions
unchanged, and the pass on the remaining sequence continues from the
state it had before that modifier's turn. -/
theorem disabled_modifier_skipped (base : Base) (time : ℝ) (m : Modifier)
    (ms : List Modifier) (g : List Vec3) (h : m.enabled = JVal.jsFalse) :
    stepMod base time m g = Except.ok g ∧
      applyMods base time (m :: ms) g = applyMods base time ms g := by
  have hstep : stepMod base time m g = Except.ok g := by
    simp only [stepMod, if_pos h]
  exact ⟨hstep, by simp only [applyMods, hstep]⟩

/-- Witness for C5: a disabled taper modifier in front of an empty rest
of the sequence on a concrete one-vertex mesh. -/
theorem disabled_modifier_skipped_witness :
    stepMod baseCylW 0 mTaperOff gW = Except.ok gW ∧
      applyMods baseCylW 0 (mTaperOff :: []) gW = applyMods baseCylW 0 [] gW :=
  disabled_modifier_skipped baseCylW 0 mTaperOff [] gW rfl

/-- C6 counterexample: the enabled modifier with type tag `toString`
(not one of taper, bend, twistNoise) does not make the frame's pass
fail with the unknown-modifier error — the property lookup finds the
truthy `Object.prototype.toString`, the `!fn` check passes, and the
frame completes with the mesh untouched, refuting the claim as stated
at this input. -/
theorem unknown_modifier_errors_counterexample :
    mToStringW.enabled ≠ JVal.jsFalse ∧
      mToStringW.type ∉ (["taper", "bend", "twistNoise"] : List String) ∧
      applyMods baseCylW 0 (mToStringW :: []) gW = Except.ok gW ∧
      applyMods baseCylW 0 (mToStringW :: []) gW ≠
        Except.error PipelineError.unknownModifierKind := by
  have hmod : MODIFIERS baseCylW 0 "toString" = JSLookup.inheritedNoop := by
    simp [ MODIFIERS, inheritedNoopNames]
  have hstep : stepMod baseCylW 0 mToStringW gW = Except.ok gW := by
    simp [stepMod, dispatchStep, mToStringW, mTaperW, hmod]
  have h : applyMods baseCylW 0 (mToStringW :: []) gW = Except.ok gW := by
    simp only [applyMods, hstep]
  exact ⟨by decide, by decide, h, by rw [h]; exact fun hc => Except.noConfusion hc⟩

/-- C6 (amended): an enabled modifier whose type tag is neither taper,
bend nor twistNoise, and is also not the name of a member the dispatch
table inherits from `Object.prototype`, makes the frame's pass fail
with the unknown-modifier error (aborting the rest of the frame),
unlike the same modifier with `enabled = false`, which is skipped
intentionally. -/
theorem unknown_modifier_errors (base : Base) (time : ℝ) (m : Modifier)
    (ms : List Modifier) (g : List Vec3) (hen : m.enabled ≠ JVal.jsFalse)
    (hty : m.type ∉ (["taper", "bend", "twistNoise"] : List String))
    (hproto : m.type ∉ objectPrototypeNames) :
    applyMods base time (m :: ms) g = Except.error PipelineError.unknownModifierKind ∧
      applyMods base time ({ m with enabled := JVal.jsFalse } :: ms) g =
        applyMods base time ms g := by
  simp only [List.mem_cons, List.not_mem_nil, or_false, not_or] at hty
  obtain ⟨h1, h2, h3⟩ := hty
  simp only [objectPrototypeNames, List.mem_append, not_or] at hproto
  obtain ⟨hp1, hp2⟩ := hproto
  have hmod : MODIFIERS base time m.type = JSLookup.undef := by
    simp only [ MODIFIERS, if_neg h3, if_neg h2, if_neg h1, if_neg hp1, if_neg hp2]
  have hstep : stepMod base time m g = Except.error PipelineError.unknownModifierKind := by
    simp only [stepMod, if_neg hen, dispatchStep, hmod]
  constructor
  · simp only [applyMods, hstep]
  · have hstep2 : stepMod base time { m with enabled := JVal.jsFalse } g = Except.ok g := by
      simp [stepMod]
    simp only [applyMods, hstep2]

/-- Witness for C6: a modifier of type `wobble`, enabled, in front of an
empty rest of the sequence on a concrete one-vertex mesh. -/
theorem unknown_modifier_errors_witness :
    applyMods baseCylW 0 (mUnknownW :: []) gW = Except.error PipelineError.unknownModifierKind ∧
      applyMods baseCylW 0 ({ mUnknownW with enabled := JVal.jsFalse } :: []) gW =
        applyMods baseCylW 0 [] gW :=
  unknown_modifier_errors baseCylW 0 mUnknownW [] gW (by decide) (by decide) (by decide)

/-- C7: bend adds `(d * amount)^2 * strength` to the y coordinate only,
with `d` the driver value along the modifier's chosen axis; x and z are
returned exactly unchanged for every driver axis. -/
theorem bend_moves_y_only (m : Modifier) (v : Vec3) :
    bendVertex m v =
      { x := v.x,
        y := v.y + (getDriverValue v m.axis * m.amount) ^ 2 * m.strength,
        z := v.z } := by
  simp only [bendVertex, pow_two]

/-- C8: the driver sampler is total, returns the corresponding
coordinate for axes x, y, z, the radial distance `sqrt(x*x + z*z)` for
`radial`, `atan2(z, x)` for `angle`, falls back to y for every
unrecognized axis, and yields 0 for the radial axis at the origin. -/
theorem driver_sampler_total :
    (∀ v : Vec3,
      getDriverValue v "x" = v.x ∧
      getDriverValue v "y" = v.y ∧
      getDriverValue v "z" = v.z ∧
      getDriverValue v "radial" = Real.sqrt (v.x * v.x + v.z * v.z) ∧
      getDriverValue v "angle" = atan2 v.z v.x) ∧
    (∀ (v : Vec3) (axis : String),
      axis ∉ (["x", "y", "z", "radial", "angle"] : List String) →
        getDriverValue v axis = v.y) ∧
    getDriverValue { x := 0, y := 0, z := 0 } "radial" = 0 := by
  refine ⟨fun v => ⟨rfl, rfl, rfl, rfl, rfl⟩, fun v axis h => ?_, ?_⟩
  · simp only [List.mem_cons, List.not_mem_nil, or_false, not_or] at h
    obtain ⟨h1, h2, h3, h4, h5⟩ := h
    simp only [getDriverValue, if_neg h1, if_neg h2, if_neg h3, if_neg h4, if_neg h5]
  · show Real.sqrt ((0 : ℝ) * 0 + 0 * 0) = 0
    rw [show ((0 : ℝ) * 0 + 0 * 0) = 0 by norm_num, Real.sqrt_zero]

/-- Witness for C8: the unrecognized axis tag `w` falls back to the y
coordinate. -/
theorem driver_sampler_total_witness :
    getDriverValue { x := 1, y := 2, z := 3 } "w" = 2 :=
  driver_sampler_total.2.1 { x := 1, y := 2, z := 3 } "w" (by decide)

/-- C9: for a supported shape tag with a segment count of zero the base
geometry builder succeeds with the segment count clamped to a minimum
viable value (never the out-of-range zero), and for an unsupported tag
it fails with the unsupported-shape error.  The clamping behaviour of
the THREE geometry constructors is modelled from the spec. -/
theorem base_geometry_clamps_or_rejects (base : Base) :
    ((base.type = "torus" ∨ base.type = "cylinder") → base.radialSegments = some 0 →
      ∃ g, buildBaseGeometry base = Except.ok g ∧ 3 ≤ radialCount g) ∧
      (base.type ≠ "torus" → base.type ≠ "cylinder" →
        buildBaseGeometry base = Except.error GeomError.unsupportedShapeKind) := by
  constructor
  · intro htag _hseg
    rcases htag with h | h
    · refine ⟨torusGeometry base.radius base.tube base.radialSegments base.tubularSegments,
        ?_, le_max_left _ _⟩
      simp only [buildBaseGeometry, if_pos h]
    · refine ⟨cylinderGeometry (base.radiusTop.getD 0.05) (base.radiusBottom.getD 0.4)
        (base.height.getD 3.0) (base.radialSegments.getD 32) (base.heightSegments.getD 64),
        ?_, le_max_left _ _⟩
      rw [buildBaseGeometry, if_neg (by rw [h]; decide), if_pos h]
  · intro h1 h2
    simp only [buildBaseGeometry, if_neg h1, if_neg h2]

/-- Witness for C9: a torus descriptor with zero radial segments is
built with a clamped segment count, and a `sphere` descriptor is
rejected. -/
theorem base_geometry_clamps_or_rejects_witness :
    (∃ g, buildBaseGeometry baseTorusZeroSeg = Except.ok g ∧ 3 ≤ radialCount g) ∧
      buildBaseGeometry baseUnknownW = Except.error GeomError.unsupportedShapeKind :=
  ⟨(base_geometry_clamps_or_rejects baseTorusZeroSeg).1 (Or.inl rfl) rfl,
    (base_geometry_clamps_or_rejects baseUnknownW).2 (by decide) (by decide)⟩

/-- C10: the per-frame pass skips a modifier exactly when its `enabled`
field is strictly the boolean `false`; for every other value of the
field (true, absent, null, the number 0, ...) the step runs the
dispatch on the modifier's type, applying it to the mesh. -/
theorem skip_iff_strictly_false (base : Base) (time : ℝ) (m : Modifier) (g : List Vec3) :
    (m.enabled = JVal.jsFalse → stepMod base time m g = Except.ok g) ∧
      (m.enabled ≠ JVal.jsFalse → stepMod base time m g = dispatchStep base time m g) := by
  constructor
  · intro h
    simp only [stepMod, if_pos h]
  · intro h
    simp only [stepMod, if_neg h]

/-- Witness for C10: a bend modifier whose `enabled` field is the falsy
number 0 is dispatched (applied), not skipped. -/
theorem skip_iff_strictly_false_witness :
    stepMod baseCylW 0 mBendZeroEnabled gW = dispatchStep baseCylW 0 mBendZeroEnabled gW :=
  (skip_iff_strictly_false baseCylW 0 mBendZeroEnabled gW).2 (by decide)

end ProcGen
